import Mathlib

/-!
Shallow embedding of the trust-scoring core of `src/app.py`
(`calculate_trust_index`, lines 138-207), together with proofs of the
specification claims about it.

Modelling conventions:
* Python `int` is `ℤ`, Python `float` arithmetic is exact rational
  arithmetic (`ℚ`); every constant of the source (`18.25`, `0.3`, the
  caps) is exactly representable, so the rational model tracks the
  source's arithmetic.
* Python strings are Lean `String`; `str.lower()` is character-wise
  lowering (`lowerStr`, ASCII as in the source's vocabulary),
  `str.count(pat)` is non-overlapping left-to-right substring counting
  (`pyCount`), and `pat in s` is substring containment (`pyContains`).
* Python's built-in `round` is round-half-to-even (`pyRound`).
-/

/-- Boolean prefix test on character lists. -/
def isPref : List Char → List Char → Bool
  | [], _ => true
  | _ :: _, [] => false
  | a :: as, b :: bs => a == b && isPref as bs

/-- Non-overlapping left-to-right substring count on character lists,
the semantics of Python's `str.count` for a non-empty pattern; the
fuel argument (instantiated with the length of the scanned list) only
drives the recursion. -/
def countOccsAux (pat : List Char) : Nat → List Char → Nat
  | 0, _ => 0
  | _, [] => 0
  | fuel + 1, c :: rest =>
    if !pat.isEmpty && isPref pat (c :: rest) then
      1 + countOccsAux pat fuel (rest.drop (pat.length - 1))
    else
      countOccsAux pat fuel rest

/-- Substring containment on character lists, the semantics of
Python's `pat in s`. -/
def hasSubstr (pat : List Char) : List Char → Bool
  | [] => pat.isEmpty
  | c :: rest => isPref pat (c :: rest) || hasSubstr pat rest

/-- Python `s.count(pat)` (the patterns used by the source are all
non-empty; for an empty pattern Python returns `len(s) + 1`). -/
def pyCount (pat s : String) : Nat :=
  if pat.isEmpty then s.length + 1 else countOccsAux pat.data s.data.length s.data

/-- Python `pat in s`. -/
def pyContains (pat s : String) : Bool :=
  hasSubstr pat.data s.data

/-- Python `s.lower()`: character-wise lowering. -/
def lowerStr (s : String) : String :=
  ⟨s.data.map Char.toLower⟩

/-- Python's built-in `round` on our rational model of floats:
round half to even. -/
def pyRound (q : ℚ) : ℤ :=
  if q - ⌊q⌋ < 1 / 2 then ⌊q⌋
  else if 1 / 2 < q - ⌊q⌋ then ⌊q⌋ + 1
  else if ⌊q⌋ % 2 = 0 then ⌊q⌋ else ⌊q⌋ + 1

/-- Python `f"{x:.1f}"` for the non-negative values the source formats:
one digit after the decimal point, rounding half to even. -/
def fmtQ1 (x : ℚ) : String :=
  toString (pyRound (10 * x) / 10) ++ "." ++ toString (pyRound (10 * x) % 10)

/-- `scam_words` list, src/app.py line 150. -/
def scam_words : List String :=
  ["win", "free", "urgent", "limited", "offer", "prize",
   "congratulations", "lottery", "selected"]

/-- `negative_phrases` list, src/app.py line 158. -/
def negative_phrases : List String :=
  ["likely scam", "suspicious", "fraudulent", "high risk",
   "be cautious", "phishing"]

/-- `positive_phrases` list, src/app.py line 159. -/
def positive_phrases : List String :=
  ["likely legitimate", "appears safe", "low risk", "trustworthy"]

/-- Result record of `calculate_trust_index`, src/app.py lines 202-207. -/
@[ext]
structure TrustResult where
  score : ℤ
  status : String
  status_class : String
  reasons : List String
deriving Repr, DecidableEq

/-- Domain-age penalty, src/app.py line 145:
`min(20, (365 - domain_age) / 18.25)`. -/
def domain_age_penalty (domain_age : ℤ) : ℚ :=
  min 20 ((365 - (domain_age : ℚ)) / 18.25)

/-- Reason string of the domain-age branch, src/app.py line 147. -/
def age_reason (domain_age : ℤ) : String :=
  "New domain (" ++ toString domain_age ++ " days old): -" ++
    fmtQ1 (domain_age_penalty domain_age) ++ "% trust"

/-- `word_count`, src/app.py line 151:
`sum(content.lower().count(word) for word in scam_words)`. -/
def word_count (content : String) : Nat :=
  (scam_words.map (fun w => pyCount w (lowerStr content))).sum

/-- Scam-word penalty, src/app.py line 153: `min(15, word_count * 2)`. -/
def scam_penalty (content : String) : Nat :=
  min 15 (word_count content * 2)

/-- Reason string of the scam-word branch, src/app.py line 155. -/
def scam_reason (content : String) : String :=
  "Suspicious keywords detected: -" ++ fmtQ1 (scam_penalty content : ℚ) ++ "% trust"

/-- `negative_score`, src/app.py line 161. -/
def negative_score (analysis : String) : ℤ :=
  ((negative_phrases.map (fun p => pyCount p (lowerStr analysis))).sum : ℤ) * 5

/-- `positive_score`, src/app.py line 162. -/
def positive_score (analysis : String) : ℤ :=
  ((positive_phrases.map (fun p => pyCount p (lowerStr analysis))).sum : ℤ) * 5

/-- `ai_penalty`, src/app.py line 164:
`min(30, max(0, negative_score - positive_score))`. -/
def ai_penalty (analysis : String) : ℤ :=
  min 30 (max 0 (negative_score analysis - positive_score analysis))

/-- Reason string of the AI branch, src/app.py line 167. -/
def ai_reason (analysis : String) : String :=
  "AI detected red flags: -" ++ fmtQ1 (ai_penalty analysis : ℚ) ++ "% trust"

/-- HTTPS test, src/app.py line 170: `"valid" in https_status.lower()`. -/
def https_valid (https_status : String) : Bool :=
  pyContains "valid" (lowerStr https_status)

/-- Blacklist gate, src/app.py line 178:
`"detected" in s.lower() or "suspicious" in s.lower()`. -/
def blacklist_flagged (blacklist_status : String) : Bool :=
  pyContains "detected" (lowerStr blacklist_status) ||
    pyContains "suspicious" (lowerStr blacklist_status)

/-- Blacklist penalty, src/app.py line 179:
`30 if "multiple" in s.lower() else 15`. -/
def blacklist_penalty (blacklist_status : String) : Nat :=
  if pyContains "multiple" (lowerStr blacklist_status) then 30 else 15

/-- Reason string of the blacklist branch, src/app.py line 181. -/
def blacklist_reason (blacklist_status : String) : String :=
  "Blacklist status: -" ++ toString (blacklist_penalty blacklist_status) ++ "% trust"

/-- Proximity penalty, src/app.py line 184: `proximity_score * 0.3`. -/
def proximity_penalty (proximity_score : ℤ) : ℚ :=
  (proximity_score : ℚ) * 0.3

/-- Reason string of the proximity step, src/app.py line 186. -/
def proximity_reason (proximity_score : ℤ) : String :=
  "Proximity to suspicious sites: -" ++ fmtQ1 (proximity_penalty proximity_score) ++ "% trust"

/-- Domain-age calculator, src/app.py lines 143-147: fires when
`domain_age < 365`; the contribution is the amount subtracted from the
running total, paired with the appended reason. -/
def age_contrib (domain_age : ℤ) : Option (ℚ × String) :=
  if domain_age < 365 then
    some (domain_age_penalty domain_age, age_reason domain_age)
  else none

/-- Scam-word calculator, src/app.py lines 149-155: fires when
`word_count > 0`. -/
def scam_contrib (content : String) : Option (ℚ × String) :=
  if 0 < word_count content then
    some ((scam_penalty content : ℚ), scam_reason content)
  else none

/-- AI-analysis calculator, src/app.py lines 157-167: fires when
`ai_penalty > 0`. -/
def ai_contrib (analysis : String) : Option (ℚ × String) :=
  if 0 < ai_penalty analysis then
    some ((ai_penalty analysis : ℚ), ai_reason analysis)
  else none

/-- Transport-security calculator, src/app.py lines 169-175: always
fires; the `+5` bonus of the source is a `-5` subtraction here. -/
def https_contrib (https_status : String) : ℚ × String :=
  if https_valid https_status then (-5, "Valid HTTPS: +5% trust")
  else (15, "Invalid HTTPS: -15% trust")

/-- Blacklist calculator, src/app.py lines 177-181. -/
def blacklist_contrib (blacklist_status : String) : Option (ℚ × String) :=
  if blacklist_flagged blacklist_status then
    some ((blacklist_penalty blacklist_status : ℚ), blacklist_reason blacklist_status)
  else none

/-- Proximity calculator, src/app.py lines 183-186: always fires. -/
def proximity_contrib (proximity_score : ℤ) : ℚ × String :=
  (proximity_penalty proximity_score, proximity_reason proximity_score)

/-- The six calculators in the source's fixed evaluation order
(src/app.py lines 143-186): each element is the amount subtracted from
the running total together with the reason appended at that step. -/
def contributions (domain_age : ℤ) (content analysis https_status blacklist_status : String)
    (proximity_score : ℤ) : List (ℚ × String) :=
  (age_contrib domain_age).toList ++ (scam_contrib content).toList ++
    (ai_contrib analysis).toList ++ [https_contrib https_status] ++
    (blacklist_contrib blacklist_status).toList ++ [proximity_contrib proximity_score]

/-- The running total after all six steps, src/app.py lines 140-186:
`trust_score` starts at 100 and each firing step subtracts its amount. -/
def trust_score_raw (domain_age : ℤ) (content analysis https_status blacklist_status : String)
    (proximity_score : ℤ) : ℚ :=
  100 - ((contributions domain_age content analysis https_status blacklist_status
    proximity_score).map Prod.fst).sum

/-- The clamp of src/app.py line 189: `max(0, min(100, trust_score))`. -/
def trust_score_clamped (domain_age : ℤ) (content analysis https_status blacklist_status : String)
    (proximity_score : ℤ) : ℚ :=
  max 0 (min 100 (trust_score_raw domain_age content analysis https_status blacklist_status
    proximity_score))

/-- `calculate_trust_index`, src/app.py lines 138-207.  The status is
derived from the clamped (unrounded) running total (lines 192-200) and
the returned score is that total rounded (line 203). -/
def calculate_trust_index (domain_age : ℤ)
    (content analysis https_status blacklist_status : String)
    (proximity_score : ℤ) : TrustResult :=
  let t := trust_score_clamped domain_age content analysis https_status blacklist_status
    proximity_score
  { score := pyRound t
    status := if 70 < t then "High Trust" else if 40 < t then "Medium Trust" else "Low Trust"
    status_class := if 70 < t then "success" else if 40 < t then "warning" else "danger"
    reasons := (contributions domain_age content analysis https_status blacklist_status
      proximity_score).map Prod.snd }

/-! ### Structural lemmas about the embedding -/

theorem contributions_eq (domain_age : ℤ)
    (content analysis https_status blacklist_status : String) (proximity_score : ℤ) :
    contributions domain_age content analysis https_status blacklist_status proximity_score =
      (if domain_age < 365 then [(domain_age_penalty domain_age, age_reason domain_age)]
        else []) ++
      (if 0 < word_count content then [((scam_penalty content : ℚ), scam_reason content)]
        else []) ++
      (if 0 < ai_penalty analysis then [((ai_penalty analysis : ℚ), ai_reason analysis)]
        else []) ++
      [https_contrib https_status] ++
      (if blacklist_flagged blacklist_status then
        [((blacklist_penalty blacklist_status : ℚ), blacklist_reason blacklist_status)]
        else []) ++
      [proximity_contrib proximity_score] := by
  unfold contributions age_contrib scam_contrib ai_contrib blacklist_contrib
  split_ifs <;> rfl

theorem trust_score_raw_eq (domain_age : ℤ)
    (content analysis https_status blacklist_status : String) (proximity_score : ℤ) :
    trust_score_raw domain_age content analysis https_status blacklist_status proximity_score =
      100 - (if domain_age < 365 then domain_age_penalty domain_age else 0)
          - (if 0 < word_count content then (scam_penalty content : ℚ) else 0)
          - (if 0 < ai_penalty analysis then (ai_penalty analysis : ℚ) else 0)
          - (if https_valid https_status then (-5 : ℚ) else 15)
          - (if blacklist_flagged blacklist_status then
              (blacklist_penalty blacklist_status : ℚ) else 0)
          - proximity_penalty proximity_score := by
  unfold trust_score_raw
  rw [contributions_eq]
  unfold https_contrib proximity_contrib
  split_ifs <;> simp <;> ring

theorem reasons_eq (domain_age : ℤ)
    (content analysis https_status blacklist_status : String) (proximity_score : ℤ) :
    (calculate_trust_index domain_age content analysis https_status blacklist_status
        proximity_score).reasons =
      (if domain_age < 365 then [age_reason domain_age] else []) ++
      (if 0 < word_count content then [scam_reason content] else []) ++
      (if 0 < ai_penalty analysis then [ai_reason analysis] else []) ++
      [(https_contrib https_status).2] ++
      (if blacklist_flagged blacklist_status then [blacklist_reason blacklist_status]
        else []) ++
      [proximity_reason proximity_score] := by
  show ((contributions domain_age content analysis https_status blacklist_status
    proximity_score).map Prod.snd) = _
  rw [contributions_eq]
  unfold https_contrib proximity_contrib
  split_ifs <;> simp

theorem score_eq (domain_age : ℤ)
    (content analysis https_status blacklist_status : String) (proximity_score : ℤ) :
    (calculate_trust_index domain_age content analysis https_status blacklist_status
        proximity_score).score =
      pyRound (trust_score_clamped domain_age content analysis https_status blacklist_status
        proximity_score) := rfl

theorem status_eq (domain_age : ℤ)
    (content analysis https_status blacklist_status : String) (proximity_score : ℤ) :
    (calculate_trust_index domain_age content analysis https_status blacklist_status
        proximity_score).status =
      (if 70 < trust_score_clamped domain_age content analysis https_status blacklist_status
          proximity_score then "High Trust"
       else if 40 < trust_score_clamped domain_age content analysis https_status blacklist_status
          proximity_score then "Medium Trust"
       else "Low Trust") := rfl

theorem status_class_eq (domain_age : ℤ)
    (content analysis https_status blacklist_status : String) (proximity_score : ℤ) :
    (calculate_trust_index domain_age content analysis https_status blacklist_status
        proximity_score).status_class =
      (if 70 < trust_score_clamped domain_age content analysis https_status blacklist_status
          proximity_score then "success"
       else if 40 < trust_score_clamped domain_age content analysis https_status
          blacklist_status proximity_score then "warning"
       else "danger") := rfl

/-! ### Lemmas about `pyRound` -/

theorem floor_le_pyRound (q : ℚ) : ⌊q⌋ ≤ pyRound q := by
  unfold pyRound; split_ifs <;> omega

theorem pyRound_le_floor_add_one (q : ℚ) : pyRound q ≤ ⌊q⌋ + 1 := by
  unfold pyRound; split_ifs <;> omega

theorem pyRound_le_of_le {q : ℚ} {n : ℤ} (h : q ≤ (n : ℚ)) : pyRound q ≤ n := by
  have hf : ⌊q⌋ ≤ n := by simpa using Int.floor_le_floor h
  rcases lt_or_eq_of_le hf with hlt | heq
  · have := pyRound_le_floor_add_one q
    omega
  · have hq : q - (⌊q⌋ : ℚ) < 1 / 2 := by
      rw [heq]
      have : q - (n : ℚ) ≤ 0 := by linarith
      linarith
    unfold pyRound
    rw [if_pos hq]
    exact hf

theorem le_pyRound_of_le {n : ℤ} {q : ℚ} (h : (n : ℚ) ≤ q) : n ≤ pyRound q := by
  have h1 : n ≤ ⌊q⌋ := Int.le_floor.mpr h
  have h2 := floor_le_pyRound q
  omega

theorem pyRound_mono {x y : ℚ} (hxy : x ≤ y) : pyRound x ≤ pyRound y := by
  rcases lt_or_le ⌊x⌋ ⌊y⌋ with h | h
  · have h1 := pyRound_le_floor_add_one x
    have h2 := floor_le_pyRound y
    omega
  · have hf : ⌊x⌋ = ⌊y⌋ := le_antisymm (Int.floor_le_floor hxy) h
    have hxle : x - (⌊y⌋ : ℚ) ≤ y - (⌊y⌋ : ℚ) := by linarith
    unfold pyRound
    rw [hf]
    split_ifs <;> first | omega | linarith

theorem trust_score_clamped_nonneg (domain_age : ℤ)
    (content analysis https_status blacklist_status : String) (proximity_score : ℤ) :
    0 ≤ trust_score_clamped domain_age content analysis https_status blacklist_status
      proximity_score :=
  le_max_left _ _

theorem trust_score_clamped_le (domain_age : ℤ)
    (content analysis https_status blacklist_status : String) (proximity_score : ℤ) :
    trust_score_clamped domain_age content analysis https_status blacklist_status
      proximity_score ≤ 100 :=
  max_le (by norm_num) (min_le_left _ _)

/-! ### String helper lemmas -/

theorem append_data (a b : String) : (a ++ b).data = a.data ++ b.data := by
  cases a; cases b; rfl

theorem ne_of_head {s t : String} (hs : s.data.head? ≠ t.data.head?) : s ≠ t :=
  fun he => hs (by rw [he])

theorem head_of_append {a : String} (b : String) {c : Char}
    (h : a.data.head? = some c) : (a ++ b).data.head? = some c := by
  rw [append_data]
  cases hd : a.data with
  | nil => rw [hd] at h; simp at h
  | cons x xs =>
    rw [hd] at h
    simp only [List.head?_cons, Option.some.injEq] at h
    rw [List.cons_append, List.head?_cons, h]

theorem age_reason_head (n : ℤ) : (age_reason n).data.head? = some 'N' := by
  unfold age_reason
  repeat apply head_of_append
  rfl

theorem scam_reason_head (c : String) : (scam_reason c).data.head? = some 'S' := by
  unfold scam_reason
  repeat apply head_of_append
  rfl

theorem ai_reason_head (a : String) : (ai_reason a).data.head? = some 'A' := by
  unfold ai_reason
  repeat apply head_of_append
  rfl

theorem blacklist_reason_head (b : String) : (blacklist_reason b).data.head? = some 'B' := by
  unfold blacklist_reason
  repeat apply head_of_append
  rfl

theorem proximity_reason_head (p : ℤ) : (proximity_reason p).data.head? = some 'P' := by
  unfold proximity_reason
  repeat apply head_of_append
  rfl

theorem isPref_append (pat r : List Char) : isPref pat (pat ++ r) = true := by
  induction pat with
  | nil => rfl
  | cons a as ih => simp [isPref, ih]

theorem hasSubstr_append_left (pat l s : List Char) (h : hasSubstr pat s = true) :
    hasSubstr pat (l ++ s) = true := by
  induction l with
  | nil => simpa using h
  | cons c cs ih =>
    show (isPref pat (c :: (cs ++ s)) || hasSubstr pat (cs ++ s)) = true
    rw [ih]
    simp

theorem hasSubstr_self_append (pat r : List Char) : hasSubstr pat (pat ++ r) = true := by
  cases pat with
  | nil =>
    cases r with
    | nil => rfl
    | cons c cs => simp [hasSubstr, isPref]
  | cons a as =>
    have hp : isPref (a :: as) ((a :: as) ++ r) = true := isPref_append _ _
    rw [List.cons_append] at hp
    show (isPref (a :: as) (a :: (as ++ r)) || hasSubstr (a :: as) (as ++ r)) = true
    rw [hp]
    simp

theorem age_reason_contains_age (n : ℤ) :
    pyContains (toString n) (age_reason n) = true := by
  unfold age_reason pyContains
  simp only [append_data, List.append_assoc]
  exact hasSubstr_append_left _ _ _ (hasSubstr_self_append _ _)

theorem pyRound_intCast (n : ℤ) : pyRound ((n : ℚ)) = n := by
  unfold pyRound
  rw [Int.floor_intCast]
  rw [if_pos (by simp only [sub_self]; norm_num : (n : ℚ) - ((n : ℤ) : ℚ) < 1 / 2)]

theorem fmtQ1_eval (x : ℚ) (m : ℤ) (h : 10 * x = (m : ℚ)) :
    fmtQ1 x = toString (m / 10) ++ "." ++ toString (m % 10) := by
  unfold fmtQ1
  rw [h, pyRound_intCast]

theorem not_mem_reasons (domain_age : ℤ)
    (content analysis https_status blacklist_status : String) (proximity_score : ℤ)
    (s : String)
    (h1 : domain_age < 365 → s ≠ age_reason domain_age)
    (h2 : 0 < word_count content → s ≠ scam_reason content)
    (h3 : 0 < ai_penalty analysis → s ≠ ai_reason analysis)
    (h4 : s ≠ (https_contrib https_status).2)
    (h5 : blacklist_flagged blacklist_status = true → s ≠ blacklist_reason blacklist_status)
    (h6 : s ≠ proximity_reason proximity_score) :
    s ∉ (calculate_trust_index domain_age content analysis https_status blacklist_status
      proximity_score).reasons := by
  rw [reasons_eq]
  intro hmem
  rcases List.mem_append.mp hmem with hm | hm
  · rcases List.mem_append.mp hm with hm | hm
    · rcases List.mem_append.mp hm with hm | hm
      · rcases List.mem_append.mp hm with hm | hm
        · rcases List.mem_append.mp hm with hm | hm
          · revert hm; split_ifs with hc <;> intro hm
            · exact h1 hc (by simpa using hm)
            · simp at hm
          · revert hm; split_ifs with hc <;> intro hm
            · exact h2 hc (by simpa using hm)
            · simp at hm
        · revert hm; split_ifs with hc <;> intro hm
          · exact h3 hc (by simpa using hm)
          · simp at hm
      · exact h4 (by simpa using hm)
    · revert hm; split_ifs with hc <;> intro hm
      · exact h5 hc (by simpa using hm)
      · simp at hm
  · exact h6 (by simpa using hm)

theorem https_reason_mem (domain_age : ℤ)
    (content analysis https_status blacklist_status : String) (proximity_score : ℤ) :
    (https_contrib https_status).2 ∈
      (calculate_trust_index domain_age content analysis https_status blacklist_status
        proximity_score).reasons := by
  rw [reasons_eq]
  exact List.mem_append_left _ (List.mem_append_left _
    (List.mem_append_right _ (List.mem_singleton.mpr rfl)))

/-! ### The claims -/

/-- C1: for every valid six-signal input (non-negative domain age,
proximity score in 0..100, arbitrary text signals), the score returned
by `calculate_trust_index` is an integer within [0, 100] inclusive,
however far the summed contributions would push the running total
outside that range. -/
theorem claim_C1 (domain_age : ℤ)
    (content analysis https_status blacklist_status : String) (proximity_score : ℤ)
    (hage : 0 ≤ domain_age) (hp0 : 0 ≤ proximity_score) (hp1 : proximity_score ≤ 100) :
    0 ≤ (calculate_trust_index domain_age content analysis https_status blacklist_status
        proximity_score).score ∧
      (calculate_trust_index domain_age content analysis https_status blacklist_status
        proximity_score).score ≤ 100 := by
  rw [score_eq]
  constructor
  · have h0 := trust_score_clamped_nonneg domain_age content analysis https_status
      blacklist_status proximity_score
    exact le_pyRound_of_le (by exact_mod_cast h0)
  · have h100 := trust_score_clamped_le domain_age content analysis https_status
      blacklist_status proximity_score
    exact pyRound_le_of_le (by exact_mod_cast h100)

theorem claim_C1_witness :
    (0 : ℤ) ≤ 3 ∧ (0 : ℤ) ≤ 97 ∧ (97 : ℤ) ≤ 100 ∧
      (0 ≤ (calculate_trust_index 3 "free" "suspicious" "none" "detected" 97).score ∧
        (calculate_trust_index 3 "free" "suspicious" "none" "detected" 97).score ≤ 100) :=
  ⟨by decide, by decide, by decide,
    claim_C1 3 "free" "suspicious" "none" "detected" 97 (by decide) (by decide) (by decide)⟩

/-- C7: monotonicity in proximity — holding the other five signals
fixed, a larger (or equal) `proximity_score` never yields a larger
returned score. -/
theorem claim_C7 (domain_age : ℤ)
    (content analysis https_status blacklist_status : String) (p q : ℤ) (hpq : p ≤ q) :
    (calculate_trust_index domain_age content analysis https_status blacklist_status
        q).score ≤
      (calculate_trust_index domain_age content analysis https_status blacklist_status
        p).score := by
  rw [score_eq, score_eq]
  apply pyRound_mono
  apply max_le_max le_rfl
  apply min_le_min le_rfl
  simp only [trust_score_raw_eq]
  have hc : (p : ℚ) ≤ (q : ℚ) := by exact_mod_cast hpq
  have hm : (p : ℚ) * 0.3 ≤ (q : ℚ) * 0.3 :=
    mul_le_mul_of_nonneg_right hc (by norm_num)
  unfold proximity_penalty
  linarith

theorem claim_C7_witness :
    (40 : ℤ) ≤ 90 ∧
      (calculate_trust_index 500 "shop" "fine" "valid" "clean" 90).score ≤
        (calculate_trust_index 500 "shop" "fine" "valid" "clean" 40).score :=
  ⟨by decide, claim_C7 500 "shop" "fine" "valid" "clean" 40 90 (by decide)⟩

/-- C10 (implicit): monotonicity in domain age — holding the other
five signals fixed, an older (or equally old) domain never yields a
smaller returned score. -/
theorem claim_C10 (age₁ age₂ : ℤ)
    (content analysis https_status blacklist_status : String) (proximity_score : ℤ)
    (h : age₁ ≤ age₂) :
    (calculate_trust_index age₁ content analysis https_status blacklist_status
        proximity_score).score ≤
      (calculate_trust_index age₂ content analysis https_status blacklist_status
        proximity_score).score := by
  rw [score_eq, score_eq]
  apply pyRound_mono
  apply max_le_max le_rfl
  apply min_le_min le_rfl
  simp only [trust_score_raw_eq]
  have hterm : (if age₂ < 365 then domain_age_penalty age₂ else 0) ≤
      (if age₁ < 365 then domain_age_penalty age₁ else 0) := by
    have hcast : (age₁ : ℚ) ≤ (age₂ : ℚ) := by exact_mod_cast h
    split_ifs with hA2 hA1 hA1
    · unfold domain_age_penalty
      apply min_le_min le_rfl
      have h18 : (0 : ℚ) < 18.25 := by norm_num
      rw [div_le_div_iff_of_pos_right h18]
      linarith
    · omega
    · unfold domain_age_penalty
      apply le_min (by norm_num)
      have h365 : (age₁ : ℚ) < 365 := by exact_mod_cast hA1
      apply div_nonneg (by linarith) (by norm_num)
    · exact le_rfl
  linarith

theorem claim_C10_witness :
    (10 : ℤ) ≤ 800 ∧
      (calculate_trust_index 10 "shop" "fine" "valid" "clean" 20).score ≤
        (calculate_trust_index 800 "shop" "fine" "valid" "clean" 20).score :=
  ⟨by decide, claim_C10 10 800 "shop" "fine" "valid" "clean" 20 (by decide)⟩

/-- C8: determinism — `calculate_trust_index` is a pure function of
its six input signals: two calls whose six inputs agree component-wise
return identical `TrustResult` values (same score, same status, same
reasons list). -/
theorem claim_C8 (age₁ age₂ : ℤ) (c₁ c₂ an₁ an₂ h₁ h₂ b₁ b₂ : String) (p₁ p₂ : ℤ)
    (hage : age₁ = age₂) (hc : c₁ = c₂) (han : an₁ = an₂) (hh : h₁ = h₂) (hb : b₁ = b₂)
    (hp : p₁ = p₂) :
    calculate_trust_index age₁ c₁ an₁ h₁ b₁ p₁ = calculate_trust_index age₂ c₂ an₂ h₂ b₂ p₂ ∧
    (calculate_trust_index age₁ c₁ an₁ h₁ b₁ p₁).score =
      (calculate_trust_index age₂ c₂ an₂ h₂ b₂ p₂).score ∧
    (calculate_trust_index age₁ c₁ an₁ h₁ b₁ p₁).status =
      (calculate_trust_index age₂ c₂ an₂ h₂ b₂ p₂).status ∧
    (calculate_trust_index age₁ c₁ an₁ h₁ b₁ p₁).reasons =
      (calculate_trust_index age₂ c₂ an₂ h₂ b₂ p₂).reasons := by
  subst hage hc han hh hb hp
  exact ⟨rfl, rfl, rfl, rfl⟩

theorem claim_C8_witness :
    (7 : ℤ) = 7 ∧
      calculate_trust_index 7 "a" "b" "c" "d" 9 = calculate_trust_index 7 "a" "b" "c" "d" 9 :=
  ⟨rfl, (claim_C8 7 7 "a" "a" "b" "b" "c" "c" "d" "d" 9 9 rfl rfl rfl rfl rfl rfl).1⟩

/-- C2 (amended): the returned level is a strict function of the
clamped, unrounded trust total `t`: level is High iff `t > 70`, Medium
iff `40 < t ≤ 70`, Low iff `t ≤ 40` (exhaustive and non-overlapping
bands), and the returned integer score is `t` rounded half to even —
so at a band edge the integer score may disagree with the band the
level came from. -/
theorem claim_C2 (domain_age : ℤ)
    (content analysis https_status blacklist_status : String) (proximity_score : ℤ) :
    ((calculate_trust_index domain_age content analysis https_status blacklist_status
        proximity_score).status = "High Trust" ↔
      70 < trust_score_clamped domain_age content analysis https_status blacklist_status
        proximity_score) ∧
    ((calculate_trust_index domain_age content analysis https_status blacklist_status
        proximity_score).status = "Medium Trust" ↔
      (40 < trust_score_clamped domain_age content analysis https_status blacklist_status
          proximity_score ∧
        trust_score_clamped domain_age content analysis https_status blacklist_status
          proximity_score ≤ 70)) ∧
    ((calculate_trust_index domain_age content analysis https_status blacklist_status
        proximity_score).status = "Low Trust" ↔
      trust_score_clamped domain_age content analysis https_status blacklist_status
        proximity_score ≤ 40) ∧
    (calculate_trust_index domain_age content analysis https_status blacklist_status
        proximity_score).score =
      pyRound (trust_score_clamped domain_age content analysis https_status blacklist_status
        proximity_score) := by
  rw [status_eq]
  split_ifs with h1 h2
  · refine ⟨iff_of_true rfl h1, iff_of_false (by decide) ?_, iff_of_false (by decide) ?_, rfl⟩
    · rintro ⟨-, h70⟩
      linarith
    · intro h40
      linarith
  · refine ⟨iff_of_false (by decide) h1, iff_of_true rfl ⟨h2, not_lt.mp h1⟩,
      iff_of_false (by decide) ?_, rfl⟩
    intro h40
    linarith
  · refine ⟨iff_of_false (by decide) h1, iff_of_false (by decide) ?_,
      iff_of_true rfl (not_lt.mp h2), rfl⟩
    rintro ⟨h40, -⟩
    exact h2 h40

/-- C2 counterexample: at domain age 400, empty content and analysis,
transport status "nope", blacklist status "none" and proximity 49, the
clamped total is 70.3, so the returned score is 70 while the returned
level is High — contradicting the claim's band "40 < score ≤ 70 ⇒
level Medium" stated over the returned integer score. -/
theorem claim_C2_counterexample :
    40 < (calculate_trust_index 400 "" "" "nope" "none" 49).score ∧
    (calculate_trust_index 400 "" "" "nope" "none" 49).score ≤ 70 ∧
    (calculate_trust_index 400 "" "" "nope" "none" 49).status ≠ "Medium Trust" := by
  have hraw : trust_score_raw 400 "" "" "nope" "none" 49 = 703 / 10 := by
    rw [trust_score_raw_eq]
    have hw : ¬(0 < word_count "") := by decide
    have hai : ¬(0 < ai_penalty "") := by decide
    have hhv : https_valid "nope" = false := by decide
    have hbf : blacklist_flagged "none" = false := by decide
    rw [if_neg (by decide : ¬((400 : ℤ) < 365)), if_neg hw, if_neg hai,
      if_neg (by simp [hhv]), if_neg (by simp [hbf])]
    unfold proximity_penalty
    norm_num
  have hcl : trust_score_clamped 400 "" "" "nope" "none" 49 = 703 / 10 := by
    unfold trust_score_clamped
    rw [hraw]
    norm_num
  have hfl : ⌊(703 / 10 : ℚ)⌋ = 70 := by norm_num [Int.floor_eq_iff]
  have hscore : (calculate_trust_index 400 "" "" "nope" "none" 49).score = 70 := by
    rw [score_eq, hcl]
    unfold pyRound
    rw [hfl]
    norm_num
  have hstatus : (calculate_trust_index 400 "" "" "nope" "none" 49).status = "High Trust" := by
    rw [status_eq, hcl]
    rw [if_pos (by norm_num : (70 : ℚ) < 703 / 10)]
  refine ⟨by rw [hscore]; decide, by rw [hscore], by rw [hstatus]; decide⟩

/-- C3: the domain-age calculator fires exactly when the age is below
365 days; then it subtracts `min(20, (365 - age) / 18.25)` and appends
a reason containing the numeric age as the first entry of the output's
reasons; at 365 days or more it contributes nothing; age 365 yields no
penalty and age 0 yields exactly the maximum 20-point penalty. -/
theorem claim_C3 (domain_age : ℤ)
    (content analysis https_status blacklist_status : String) (proximity_score : ℤ) :
    (domain_age < 365 →
      age_contrib domain_age =
        some (min 20 ((365 - (domain_age : ℚ)) / 18.25), age_reason domain_age) ∧
      pyContains (toString domain_age) (age_reason domain_age) = true ∧
      (calculate_trust_index domain_age content analysis https_status blacklist_status
        proximity_score).reasons.head? = some (age_reason domain_age)) ∧
    (365 ≤ domain_age →
      age_contrib domain_age = none ∧
      age_reason domain_age ∉
        (calculate_trust_index domain_age content analysis https_status blacklist_status
          proximity_score).reasons) ∧
    age_contrib 365 = none ∧
    age_contrib 0 = some (20, age_reason 0) := by
  refine ⟨?_, ?_, ?_, ?_⟩
  · intro hlt
    refine ⟨by rw [age_contrib, if_pos hlt]; rfl, age_reason_contains_age domain_age, ?_⟩
    rw [reasons_eq, if_pos hlt]
    rfl
  · intro hge
    refine ⟨by rw [age_contrib, if_neg (by omega)], ?_⟩
    apply not_mem_reasons
    · intro hlt
      omega
    · intro _
      exact ne_of_head (by rw [age_reason_head, scam_reason_head]; decide)
    · intro _
      exact ne_of_head (by rw [age_reason_head, ai_reason_head]; decide)
    · unfold https_contrib
      split_ifs
      · exact ne_of_head (by rw [age_reason_head]; decide)
      · exact ne_of_head (by rw [age_reason_head]; decide)
    · intro _
      exact ne_of_head (by rw [age_reason_head, blacklist_reason_head]; decide)
    · exact ne_of_head (by rw [age_reason_head, proximity_reason_head]; decide)
  · rw [age_contrib, if_neg (by omega)]
  · rw [age_contrib, if_pos (by omega)]
    unfold domain_age_penalty
    norm_num

theorem claim_C3_witness :
    (5 : ℤ) < 365 ∧
      (age_contrib 5 = some (min 20 ((365 - (5 : ℚ)) / 18.25), age_reason 5) ∧
        pyContains (toString (5 : ℤ)) (age_reason 5) = true ∧
        (calculate_trust_index 5 "x" "y" "z" "w" 8).reasons.head? = some (age_reason 5)) :=
  ⟨by decide, (claim_C3 5 "x" "y" "z" "w" 8).1 (by decide)⟩

/-- C5: for every transport-status string the transport-security
calculator fires exactly one of its two branches: a status containing
"valid" case-insensitively yields the −5 subtraction (+5 bonus) and
the exact reason "Valid HTTPS: +5% trust" in the output, any other
status yields the +15 subtraction (15-point penalty) and the exact
reason "Invalid HTTPS: -15% trust"; the reason of the branch that did
not fire never appears. -/
theorem claim_C5 (domain_age : ℤ)
    (content analysis https_status blacklist_status : String) (proximity_score : ℤ) :
    (https_valid https_status = true →
      https_contrib https_status = ((-5 : ℚ), "Valid HTTPS: +5% trust") ∧
      "Valid HTTPS: +5% trust" ∈
        (calculate_trust_index domain_age content analysis https_status blacklist_status
          proximity_score).reasons ∧
      "Invalid HTTPS: -15% trust" ∉
        (calculate_trust_index domain_age content analysis https_status blacklist_status
          proximity_score).reasons) ∧
    (https_valid https_status = false →
      https_contrib https_status = ((15 : ℚ), "Invalid HTTPS: -15% trust") ∧
      "Invalid HTTPS: -15% trust" ∈
        (calculate_trust_index domain_age content analysis https_status blacklist_status
          proximity_score).reasons ∧
      "Valid HTTPS: +5% trust" ∉
        (calculate_trust_index domain_age content analysis https_status blacklist_status
          proximity_score).reasons) := by
  constructor
  · intro hv
    have hco : https_contrib https_status = ((-5 : ℚ), "Valid HTTPS: +5% trust") := by
      rw [https_contrib, if_pos hv]
    refine ⟨hco, ?_, ?_⟩
    · have := https_reason_mem domain_age content analysis https_status blacklist_status
        proximity_score
      rwa [hco] at this
    · apply not_mem_reasons
      · intro _
        exact ne_of_head (by rw [age_reason_head]; decide)
      · intro _
        exact ne_of_head (by rw [scam_reason_head]; decide)
      · intro _
        exact ne_of_head (by rw [ai_reason_head]; decide)
      · rw [hco]
        decide
      · intro _
        exact ne_of_head (by rw [blacklist_reason_head]; decide)
      · exact ne_of_head (by rw [proximity_reason_head]; decide)
  · intro hv
    have hco : https_contrib https_status = ((15 : ℚ), "Invalid HTTPS: -15% trust") := by
      rw [https_contrib, if_neg (by simp [hv])]
    refine ⟨hco, ?_, ?_⟩
    · have := https_reason_mem domain_age content analysis https_status blacklist_status
        proximity_score
      rwa [hco] at this
    · apply not_mem_reasons
      · intro _
        exact ne_of_head (by rw [age_reason_head]; decide)
      · intro _
        exact ne_of_head (by rw [scam_reason_head]; decide)
      · intro _
        exact ne_of_head (by rw [ai_reason_head]; decide)
      · rw [hco]
        decide
      · intro _
        exact ne_of_head (by rw [blacklist_reason_head]; decide)
      · exact ne_of_head (by rw [proximity_reason_head]; decide)

theorem claim_C5_witness :
    https_valid "Valid HTTPS Found" = true ∧
      (https_contrib "Valid HTTPS Found" = ((-5 : ℚ), "Valid HTTPS: +5% trust") ∧
        "Valid HTTPS: +5% trust" ∈
          (calculate_trust_index 400 "c" "a" "Valid HTTPS Found" "b" 3).reasons ∧
        "Invalid HTTPS: -15% trust" ∉
          (calculate_trust_index 400 "c" "a" "Valid HTTPS Found" "b" 3).reasons) :=
  ⟨by decide, (claim_C5 400 "c" "a" "Valid HTTPS Found" "b" 3).1 (by decide)⟩

/-- C6: every calculator that fires appends exactly one reason, the
length of the reasons list equals the number of calculators that
fired, and whenever all six calculators fire the reasons appear in the
fixed order (domain age, lexical, AI, transport, blacklist,
proximity), with no reordering or deduplication. -/
theorem claim_C6 (domain_age : ℤ)
    (content analysis https_status blacklist_status : String) (proximity_score : ℤ) :
    (calculate_trust_index domain_age content analysis https_status blacklist_status
        proximity_score).reasons.length =
      ((if domain_age < 365 then 1 else 0) + (if 0 < word_count content then 1 else 0) +
        (if 0 < ai_penalty analysis then 1 else 0) + 1 +
        (if blacklist_flagged blacklist_status then 1 else 0) + 1) ∧
    (domain_age < 365 → 0 < word_count content → 0 < ai_penalty analysis →
      blacklist_flagged blacklist_status = true →
      (calculate_trust_index domain_age content analysis https_status blacklist_status
          proximity_score).reasons =
        [age_reason domain_age, scam_reason content, ai_reason analysis,
          (https_contrib https_status).2, blacklist_reason blacklist_status,
          proximity_reason proximity_score]) := by
  constructor
  · rw [reasons_eq]
    split_ifs <;> simp
  · intro hA hW hAI hB
    rw [reasons_eq, if_pos hA, if_pos hW, if_pos hAI, if_pos hB]
    rfl

theorem claim_C6_witness :
    (5 : ℤ) < 365 ∧ 0 < word_count "free" ∧ 0 < ai_penalty "suspicious" ∧
      blacklist_flagged "detected" = true ∧
      (calculate_trust_index 5 "free" "suspicious" "x" "detected" 85).reasons =
        [age_reason 5, scam_reason "free", ai_reason "suspicious",
          (https_contrib "x").2, blacklist_reason "detected", proximity_reason 85] :=
  ⟨by decide, by decide, by decide, by decide,
    (claim_C6 5 "free" "suspicious" "x" "detected" 85).2 (by decide) (by decide) (by decide)
      (by decide)⟩

/-- C4: evaluation of the code at the spec's "clean site" scenario
(age 400, content "Welcome to our store", AI analysis "This site
appears safe and trustworthy", transport "Valid HTTPS Found",
blacklist "Not detected by any blacklist engine", proximity 10).  The
blacklist calculator fires — "detected" is a substring of "Not
detected by any blacklist engine" — so the code returns score 87 with
a 15-point blacklist penalty, not the claimed penalty-free score
of 100. -/
theorem claim_C4 :
    calculate_trust_index 400 "Welcome to our store" "This site appears safe and trustworthy"
        "Valid HTTPS Found" "Not detected by any blacklist engine" 10 =
      { score := 87, status := "High Trust", status_class := "success",
        reasons := ["Valid HTTPS: +5% trust", "Blacklist status: -15% trust",
          "Proximity to suspicious sites: -3.0% trust"] } := by
  have hage : ¬((400 : ℤ) < 365) := by decide
  have hw : ¬(0 < word_count "Welcome to our store") := by decide
  have hai : ¬(0 < ai_penalty "This site appears safe and trustworthy") := by decide
  have hv : https_valid "Valid HTTPS Found" = true := by decide
  have hbf : blacklist_flagged "Not detected by any blacklist engine" = true := by decide
  have hbp : blacklist_penalty "Not detected by any blacklist engine" = 15 := by decide
  have hraw : trust_score_raw 400 "Welcome to our store"
      "This site appears safe and trustworthy" "Valid HTTPS Found"
      "Not detected by any blacklist engine" 10 = 87 := by
    rw [trust_score_raw_eq, if_neg hage, if_neg hw, if_neg hai, if_pos hv, if_pos hbf, hbp]
    unfold proximity_penalty
    norm_num
  have hcl : trust_score_clamped 400 "Welcome to our store"
      "This site appears safe and trustworthy" "Valid HTTPS Found"
      "Not detected by any blacklist engine" 10 = 87 := by
    unfold trust_score_clamped
    rw [hraw]
    norm_num
  have hpy : pyRound (87 : ℚ) = 87 := by
    rw [show (87 : ℚ) = ((87 : ℤ) : ℚ) by norm_num]
    exact pyRound_intCast 87
  have hbr : blacklist_reason "Not detected by any blacklist engine" =
      "Blacklist status: -15% trust" := by
    unfold blacklist_reason
    rw [hbp]
    decide
  have hprox : proximity_reason 10 = "Proximity to suspicious sites: -3.0% trust" := by
    unfold proximity_reason
    rw [fmtQ1_eval (proximity_penalty 10) 30 (by unfold proximity_penalty; norm_num)]
    decide
  refine TrustResult.ext ?_ ?_ ?_ ?_
  · rw [score_eq, hcl, hpy]
  · rw [status_eq, hcl, if_pos (by norm_num : (70 : ℚ) < 87)]
  · rw [status_class_eq, hcl, if_pos (by norm_num : (70 : ℚ) < 87)]
  · rw [reasons_eq, if_neg hage, if_neg hw, if_neg hai, if_pos hbf, https_contrib,
      if_pos hv, hbr, hprox]
    rfl

/-- C9: totality at boundary values — at every combination of
domain age ∈ {0, 365}, proximity ∈ {0, 100} and empty
content/analysis/status strings, `calculate_trust_index` returns a
full, well-formed result, and the absence of any vocabulary match is a
silent no-contribution outcome rather than a failure. -/
theorem claim_C9 :
    (calculate_trust_index 0 "" "" "" "" 0 =
      { score := 65, status := "Medium Trust", status_class := "warning",
        reasons := ["New domain (0 days old): -20.0% trust", "Invalid HTTPS: -15% trust",
          "Proximity to suspicious sites: -0.0% trust"] }) ∧
    (calculate_trust_index 0 "" "" "" "" 100 =
      { score := 35, status := "Low Trust", status_class := "danger",
        reasons := ["New domain (0 days old): -20.0% trust", "Invalid HTTPS: -15% trust",
          "Proximity to suspicious sites: -30.0% trust"] }) ∧
    (calculate_trust_index 365 "" "" "" "" 0 =
      { score := 85, status := "High Trust", status_class := "success",
        reasons := ["Invalid HTTPS: -15% trust",
          "Proximity to suspicious sites: -0.0% trust"] }) ∧
    (calculate_trust_index 365 "" "" "" "" 100 =
      { score := 55, status := "Medium Trust", status_class := "warning",
        reasons := ["Invalid HTTPS: -15% trust",
          "Proximity to suspicious sites: -30.0% trust"] }) ∧
    (∀ content : String, word_count content = 0 → scam_contrib content = none) ∧
    (∀ analysis : String, ai_penalty analysis ≤ 0 → ai_contrib analysis = none) := by
  have hage0 : (0 : ℤ) < 365 := by decide
  have hage365 : ¬((365 : ℤ) < 365) := by decide
  have hpen0 : domain_age_penalty 0 = 20 := by
    unfold domain_age_penalty
    norm_num
  have hw : ¬(0 < word_count "") := by decide
  have hai : ¬(0 < ai_penalty "") := by decide
  have hv : https_valid "" = false := by decide
  have hbf : blacklist_flagged "" = false := by decide
  have har : age_reason 0 = "New domain (0 days old): -20.0% trust" := by
    unfold age_reason
    rw [fmtQ1_eval (domain_age_penalty 0) 200 (by rw [hpen0]; norm_num)]
    decide
  have hpr0 : proximity_reason 0 = "Proximity to suspicious sites: -0.0% trust" := by
    unfold proximity_reason
    rw [fmtQ1_eval (proximity_penalty 0) 0 (by unfold proximity_penalty; norm_num)]
    decide
  have hpr100 : proximity_reason 100 = "Proximity to suspicious sites: -30.0% trust" := by
    unfold proximity_reason
    rw [fmtQ1_eval (proximity_penalty 100) 300 (by unfold proximity_penalty; norm_num)]
    decide
  refine ⟨?_, ?_, ?_, ?_, ?_, ?_⟩
  · have hraw : trust_score_raw 0 "" "" "" "" 0 = 65 := by
      rw [trust_score_raw_eq, if_pos hage0, hpen0, if_neg hw, if_neg hai,
        if_neg (by simp [hv]), if_neg (by simp [hbf])]
      unfold proximity_penalty
      norm_num
    have hcl : trust_score_clamped 0 "" "" "" "" 0 = 65 := by
      unfold trust_score_clamped
      rw [hraw]
      norm_num
    have hpy : pyRound (65 : ℚ) = 65 := by
      rw [show (65 : ℚ) = ((65 : ℤ) : ℚ) by norm_num]
      exact pyRound_intCast 65
    refine TrustResult.ext ?_ ?_ ?_ ?_
    · rw [score_eq, hcl, hpy]
    · rw [status_eq, hcl, if_neg (by norm_num : ¬((70 : ℚ) < 65)),
        if_pos (by norm_num : (40 : ℚ) < 65)]
    · rw [status_class_eq, hcl, if_neg (by norm_num : ¬((70 : ℚ) < 65)),
        if_pos (by norm_num : (40 : ℚ) < 65)]
    · rw [reasons_eq, if_pos hage0, if_neg hw, if_neg hai, if_neg (by simp [hbf]),
        https_contrib, if_neg (by simp [hv]), har, hpr0]
      rfl
  · have hraw : trust_score_raw 0 "" "" "" "" 100 = 35 := by
      rw [trust_score_raw_eq, if_pos hage0, hpen0, if_neg hw, if_neg hai,
        if_neg (by simp [hv]), if_neg (by simp [hbf])]
      unfold proximity_penalty
      norm_num
    have hcl : trust_score_clamped 0 "" "" "" "" 100 = 35 := by
      unfold trust_score_clamped
      rw [hraw]
      norm_num
    have hpy : pyRound (35 : ℚ) = 35 := by
      rw [show (35 : ℚ) = ((35 : ℤ) : ℚ) by norm_num]
      exact pyRound_intCast 35
    refine TrustResult.ext ?_ ?_ ?_ ?_
    · rw [score_eq, hcl, hpy]
    · rw [status_eq, hcl, if_neg (by norm_num : ¬((70 : ℚ) < 35)),
        if_neg (by norm_num : ¬((40 : ℚ) < 35))]
    · rw [status_class_eq, hcl, if_neg (by norm_num : ¬((70 : ℚ) < 35)),
        if_neg (by norm_num : ¬((40 : ℚ) < 35))]
    · rw [reasons_eq, if_pos hage0, if_neg hw, if_neg hai, if_neg (by simp [hbf]),
        https_contrib, if_neg (by simp [hv]), har, hpr100]
      rfl
  · have hraw : trust_score_raw 365 "" "" "" "" 0 = 85 := by
      rw [trust_score_raw_eq, if_neg hage365, if_neg hw, if_neg hai,
        if_neg (by simp [hv]), if_neg (by simp [hbf])]
      unfold proximity_penalty
      norm_num
    have hcl : trust_score_clamped 365 "" "" "" "" 0 = 85 := by
      unfold trust_score_clamped
      rw [hraw]
      norm_num
    have hpy : pyRound (85 : ℚ) = 85 := by
      rw [show (85 : ℚ) = ((85 : ℤ) : ℚ) by norm_num]
      exact pyRound_intCast 85
    refine TrustResult.ext ?_ ?_ ?_ ?_
    · rw [score_eq, hcl, hpy]
    · rw [status_eq, hcl, if_pos (by norm_num : (70 : ℚ) < 85)]
    · rw [status_class_eq, hcl, if_pos (by norm_num : (70 : ℚ) < 85)]
    · rw [reasons_eq, if_neg hage365, if_neg hw, if_neg hai, if_neg (by simp [hbf]),
        https_contrib, if_neg (by simp [hv]), hpr0]
      rfl
  · have hraw : trust_score_raw 365 "" "" "" "" 100 = 55 := by
      rw [trust_score_raw_eq, if_neg hage365, if_neg hw, if_neg hai,
        if_neg (by simp [hv]), if_neg (by simp [hbf])]
      unfold proximity_penalty
      norm_num
    have hcl : trust_score_clamped 365 "" "" "" "" 100 = 55 := by
      unfold trust_score_clamped
      rw [hraw]
      norm_num
    have hpy : pyRound (55 : ℚ) = 55 := by
      rw [show (55 : ℚ) = ((55 : ℤ) : ℚ) by norm_num]
      exact pyRound_intCast 55
    refine TrustResult.ext ?_ ?_ ?_ ?_
    · rw [score_eq, hcl, hpy]
    · rw [status_eq, hcl, if_neg (by norm_num : ¬((70 : ℚ) < 55)),
        if_pos (by norm_num : (40 : ℚ) < 55)]
    · rw [status_class_eq, hcl, if_neg (by norm_num : ¬((70 : ℚ) < 55)),
        if_pos (by norm_num : (40 : ℚ) < 55)]
    · rw [reasons_eq, if_neg hage365, if_neg hw, if_neg hai, if_neg (by simp [hbf]),
        https_contrib, if_neg (by simp [hv]), hpr100]
      rfl
  · intro content hc
    rw [scam_contrib, if_neg (by omega)]
  · intro analysis ha
    rw [ai_contrib, if_neg (by omega)]

theorem claim_C9_witness :
    word_count "" = 0 ∧ scam_contrib "" = none ∧
      ai_penalty "" ≤ 0 ∧ ai_contrib "" = none :=
  ⟨by decide, claim_C9.2.2.2.2.1 "" (by decide), by decide,
    claim_C9.2.2.2.2.2 "" (by decide)⟩

example : pyCount "free" "free stuff free" = 2 := by decide
example : pyContains "valid" (lowerStr "Invalid or Expired Certificate") = true := by decide
example : pyContains "detected" (lowerStr "Not detected by any blacklist engine") = true := by
  decide
example : word_count "Welcome to our store" = 0 := by decide
example : ai_penalty "This site appears safe and trustworthy" = 0 := by decide
example : https_valid "Valid HTTPS Found" = true := by decide
